import Mathlib

/-!
Shallow embedding of the KRAMO watchdog (src/KRAMO2.pyw) and proofs about
its restart/monitoring control loop.

Modelling conventions:
* Machine integers are `Int`/`Nat`; times are integer second counts.
* Fallible operations take their outside-world results as explicit oracle
  arguments (process counts observed, HTTP delivery results, click results).
* Side effects (notifications, kills, clicks, Qt signal emissions) are
  recorded as an event list `Ev` in program order.
* `time.sleep` only delays; it is not modelled.  Each poll tick carries the
  clock values the code would read during that tick: `tNow` for the reads
  before any restart, and `tAfterCrash`/`tAfterSched` for the reads made
  right after a restart returns (the source re-reads the clock there).
-/

namespace KRAMO

namespace AppConstants

/-- Constant `AppConstants.ROBLOX_PROCESS` (line 37). -/
def ROBLOX_PROCESS : String := "robloxplayerbeta.exe"

/-- Constant `AppConstants.STRAP_SUFFIX` (line 39). -/
def STRAP_SUFFIX : String := "strap.exe"

/-- Constant `AppConstants.VERIFY_DELAY` (line 41), seconds. -/
def VERIFY_DELAY : Nat := 30

/-- Constant `AppConstants.MAX_RETRIES` (line 42). -/
def MAX_RETRIES : Nat := 3

/-- Constant `AppConstants.WARNING_OFFSET` (line 43), seconds. -/
def WARNING_OFFSET : Int := 60

/-- Constant `AppConstants.MONITOR_INTERVAL` (line 44), seconds. -/
def MONITOR_INTERVAL : Nat := 5

end AppConstants

/-- The `Status` enumeration (lines 60–67). -/
inductive Status where
  | idle
  | running
  | stopping
  | stopped
  | failed
  | error
deriving DecidableEq, Repr

/-- The user-visible string of each `Status` member (lines 62–67). -/
def Status.value : Status → String
  | .idle => "Idle"
  | .running => "Running…"
  | .stopping => "Stopping…"
  | .stopped => "Stopped"
  | .failed => "Failed — stopped"
  | .error => "Error"

/-- The `AppConfig` dataclass fields (lines 69–77).  Validation performed by
`__post_init__` is modelled separately by `mkAppConfig`. -/
structure AppConfig where
  interval_min : Int
  webhook1 : String
  webhook2 : String
  ping_id : String
  limit_strap : Bool
  button_coord : Option (Int × Int)
deriving DecidableEq, Repr

/-- The dataclass defaults of `AppConfig` (lines 72–77). -/
def AppConfig.defaults : AppConfig :=
  ⟨28, "", "", "", false, none⟩

/-- Python's `str.strip` (no arguments), modelled over the character
sequence: leading and trailing whitespace removed. -/
def pyStrip (s : String) : String :=
  ⟨((s.data.dropWhile Char.isWhitespace).reverse.dropWhile Char.isWhitespace).reverse⟩

/-- Python's `str.startswith`, modelled over the character sequences. -/
def pyStartsWith (s pre : String) : Bool := pre.data.isPrefixOf s.data

/-- `AppConfig._is_valid_webhook_url` (lines 88–92). -/
def is_valid_webhook_url (url : String) : Bool :=
  pyStartsWith url "https://discord.com/api/webhooks/" ||
    pyStartsWith url "https://discordapp.com/api/webhooks/"

/-- The `AppConfig.webhooks` property (lines 94–97): the non-empty
(after stripping) webhook URLs. -/
def AppConfig.webhooks (c : AppConfig) : List String :=
  [c.webhook1, c.webhook2].filter (fun url => pyStrip url ≠ "")

/-- The `AppConfig.has_valid_webhooks` property (lines 99–102). -/
def AppConfig.has_valid_webhooks (c : AppConfig) : Bool :=
  decide (0 < c.webhooks.length)

/-- `AppConfig.__post_init__` validation (lines 79–86): the dataclass
constructor either raises `ValueError` (modelled as `.error`) or yields the
constructed record.  The webhook check runs for each truthy (non-empty)
webhook string, in order. -/
def mkAppConfig (interval_min : Int) (webhook1 webhook2 ping_id : String)
    (limit_strap : Bool) (button_coord : Option (Int × Int)) :
    Except String AppConfig :=
  if interval_min < 1 ∨ 999 < interval_min then
    .error "Interval must be between 1 and 999 minutes"
  else if webhook1 ≠ "" ∧ is_valid_webhook_url webhook1 = false then
    .error ("Invalid webhook URL: " ++ webhook1)
  else if webhook2 ≠ "" ∧ is_valid_webhook_url webhook2 = false then
    .error ("Invalid webhook URL: " ++ webhook2)
  else
    .ok ⟨interval_min, webhook1, webhook2, ping_id, limit_strap, button_coord⟩

/-- The shape of the persisted configuration document (`kramo_config.json`):
`AppConfig.to_dict` feeds `json.dump`, which stores the coordinate tuple as a
JSON array, hence `Option (List Int)` here. -/
structure ConfigDoc where
  interval_min : Int
  webhook1 : String
  webhook2 : String
  ping_id : String
  limit_strap : Bool
  button_coord : Option (List Int)
deriving DecidableEq, Repr

/-- `AppConfig.to_dict` (lines 104–106) composed with JSON serialisation:
`asdict` keeps every scalar field and the coordinate becomes a two-element
array in the JSON document. -/
def to_dict (c : AppConfig) : ConfigDoc :=
  ⟨c.interval_min, c.webhook1, c.webhook2, c.ping_id, c.limit_strap,
    c.button_coord.map (fun xy => [xy.1, xy.2])⟩

/-- `AppConfig.from_dict` (lines 108–115): a present two-element coordinate
array is turned back into a pair, then the dataclass constructor (and with it
`__post_init__`) runs.  An absent (`null`) coordinate stays absent.  (A
present array of another length is passed through raw by the Python and is
outside this typed model's range; it is mapped to `none` here — `to_dict`
never produces such a document.) -/
def from_dict (d : ConfigDoc) : Except String AppConfig :=
  let coord : Option (Int × Int) :=
    match d.button_coord with
    | some [x, y] => some (x, y)
    | _ => none
  mkAppConfig d.interval_min d.webhook1 d.webhook2 d.ping_id d.limit_strap coord

/-- `ConfigManager.save_config` (lines 147–155): the saved file holds the
`to_dict` document. -/
def save_config (c : AppConfig) : ConfigDoc := to_dict c

/-- `ConfigManager.load_config` (lines 135–145): an absent file, or any
exception while reading/validating, falls back to the defaults. -/
def load_config (file : Option ConfigDoc) : AppConfig :=
  match file with
  | none => AppConfig.defaults
  | some d =>
    match from_dict d with
    | .ok c => c
    | .error _ => AppConfig.defaults

/-- Python's `str.lower`, modelled over the string's character sequence
(the byte-position based `String.toLower` does not reduce in the kernel). -/
def pyLower (s : String) : String := ⟨s.data.map Char.toLower⟩

/-- Python's `str.endswith`, modelled over the character sequences. -/
def pyEndsWith (s suffix : String) : Bool := suffix.data.isSuffixOf s.data

/-- A process as seen through `psutil.process_iter(['name', 'create_time',
'pid'])`. -/
structure ProcInfo where
  name : String
  create_time : Int
  pid : Nat
deriving DecidableEq, Repr

/-- `ProcessManager.count_roblox_processes` (lines 189–200).  The enumeration
either fails with an exception (`.error`) — logged and turned into a count of
0 — or yields the process list, in which case the processes whose lowercased
name equals `ROBLOX_PROCESS` are counted.  The function is total: it never
propagates an exception to its caller. -/
def count_roblox_processes (res : Except String (List ProcInfo)) : Nat :=
  match res with
  | .error _ => 0
  | .ok procs =>
    (procs.filter (fun p => pyLower p.name == AppConstants.ROBLOX_PROCESS)).length

/-- The helper-process filter used by `limit_strap_processes` (lines
227–230): processes whose lowercased name ends with `STRAP_SUFFIX`. -/
def strapHelpers (procs : List ProcInfo) : List ProcInfo :=
  procs.filter (fun p => pyEndsWith (pyLower p.name) AppConstants.STRAP_SUFFIX)

/-- `ProcessManager.limit_strap_processes` (lines 223–250), returning the
list of processes it kills: with at most one helper nothing is killed;
otherwise the helpers are sorted by creation time ascending (Python's stable
`list.sort`, modelled by the stable `List.mergeSort`) and every helper except
the first of the sorted list (`helpers[1:]`) is killed. -/
def limit_strap_processes (procs : List ProcInfo) : List ProcInfo :=
  let helpers := strapHelpers procs
  if helpers.length ≤ 1 then []
  else
    (helpers.mergeSort (fun a b => decide (a.create_time ≤ b.create_time))).drop 1

/-- The notification messages the program composes, by their variable
content; `renderMsg` gives the exact strings the source builds. -/
inductive Msg where
  | crash
  | scheduled
  | warningAt (ts : Int)
  | retry (attempt : Nat)
  | failure (ping_id : String)
deriving DecidableEq, Repr

/-- The message texts as the source composes them.  `fmtTime` stands for
`datetime.fromtimestamp(·, TIMEZONE).strftime("%I:%M %p ET")` (line 283–284),
left abstract since it is pure display formatting of the same timestamp.
Sources: line 423 (crash), line 446 (scheduled), lines 280–285 (warning),
line 391 (retry), lines 396–398 (failure with the optional `<@ping>` mention
appended). -/
def renderMsg (fmtTime : Int → String) : Msg → String
  | .crash => "⏰ Abrupt Restart… (Game Crashed)"
  | .scheduled => "⏰ Restarting now…"
  | .warningAt ts =>
    "⚠️ The macro will restart at **" ++ fmtTime ts ++ "** (<t:" ++
      toString ts ++ ":R>)"
  | .retry attempt =>
    "⚠️ Restart attempt " ++ toString attempt ++ " failed — retrying…"
  | .failure ping_id =>
    "❌ Restart failed after " ++ toString AppConstants.MAX_RETRIES ++
      " attempts" ++ (if ping_id ≠ "" then " <@" ++ ping_id ++ ">" else "")

/-- `WebhookManager.create_warning_message` (lines 280–285): the embedded
timestamp is the current time plus `WARNING_OFFSET`. -/
def create_warning_message (now : Int) : Msg :=
  .warningAt (now + AppConstants.WARNING_OFFSET)

/-- The observable actions of the watchdog, in program order. -/
inductive Ev where
  | notify (m : Msg)
  | killTargets
  | clickJoin (twoTierOk : Bool)
  | verify (n : Nat)
  | capHelpers
  | progress (pct : Int)
  | statusChanged (st : Status)
deriving DecidableEq, Repr

/-- `WebhookManager.send_notification` (lines 259–278) over the constructor's
already-filtered URL list: with no URLs it returns `False` immediately;
otherwise it attempts a delivery to every URL in order (`httpOk` gives each
delivery's outcome; failures are logged, never raised) and returns whether at
least one delivery succeeded. -/
def send_notification (webhook_urls : List String) (content : Msg)
    (httpOk : String → Bool) : Bool × List (String × Msg) :=
  if webhook_urls = [] then (false, [])
  else
    (decide (0 < (webhook_urls.filter httpOk).length),
      webhook_urls.map (fun url => (url, content)))

/-- The retry loop of `WatchdogWorker._perform_restart` (lines 373–394),
written with `fuel` = number of attempts still available, so `for attempt in
range(1, MAX_RETRIES + 1)` starts as `restartAttempts … 1 MAX_RETRIES` and
`attempt < MAX_RETRIES` becomes `fuel ≠ 0` after peeling one attempt.  Each
attempt clicks the join button (result only logged), sleeps `VERIFY_DELAY`,
and re-counts processes via the per-attempt oracle `obs`.  A positive count
caps the strap helpers when configured and succeeds; a zero count with
attempts remaining sends the retry warning, kills targets again and retries.
Returns (success, attempts used, events). -/
def restartAttempts (limit_strap : Bool) (obs : Nat → Nat)
    (clicks : Nat → Bool) (attempt : Nat) : Nat → Bool × Nat × List Ev
  | 0 => (false, 0, [])
  | fuel + 1 =>
    let clickEv := Ev.clickJoin (clicks attempt)
    let c := obs attempt
    if 0 < c then
      (true, attempt,
        [clickEv, Ev.verify c] ++ if limit_strap then [Ev.capHelpers] else [])
    else if fuel ≠ 0 then
      let r := restartAttempts limit_strap obs clicks (attempt + 1) fuel
      (r.1, r.2.1,
        [clickEv, Ev.verify c, Ev.notify (.retry attempt), Ev.killTargets]
          ++ r.2.2)
    else
      (false, attempt, [clickEv, Ev.verify c])

/-- `WatchdogWorker._perform_restart` (lines 362–402): notify the reason,
kill targets, settle, then run the bounded attempt loop; on exhaustion send
the final failure message (with the `<@ping_id>` mention appended when one is
configured) and return failure.  `stopRequested` is the value of the worker's
stop flag while this method runs: the source never consults it here, so the
result cannot depend on it. -/
def perform_restart (cfg : AppConfig) (stopRequested : Bool) (reason : Msg)
    (obs : Nat → Nat) (clicks : Nat → Bool) : Bool × Nat × List Ev :=
  let r := restartAttempts cfg.limit_strap obs clicks 1 AppConstants.MAX_RETRIES
  let pre := [Ev.notify reason, Ev.killTargets]
  if r.1 then (true, r.2.1, pre ++ r.2.2)
  else
    (false, r.2.1, pre ++ r.2.2 ++ [Ev.notify (.failure cfg.ping_id)])

/-- The loop state of `WatchdogWorker.run` (lines 409–411): cycle start
timestamp, warning-sent flag, last observed process count. -/
structure LoopState where
  cycleStart : Int
  warningSent : Bool
  lastCount : Nat
deriving DecidableEq, Repr

/-- The outside-world inputs of one iteration of the polling loop:
the two stop-flag reads at the loop condition (`stopA`, line 413) and after
the sleep (`stopB`, line 416); the observed process count; the clock value
`tNow` for this tick's reads before any restart; the stop-flag value while a
restart of this tick runs (`stopDuring`, never consulted by the source); and,
for each of the two restart call sites, its per-attempt count/click oracles
and the clock value read right after that restart returns. -/
structure TickInput where
  stopA : Bool
  stopB : Bool
  count : Nat
  tNow : Int
  stopDuring : Bool
  crashObs : Nat → Nat
  crashClicks : Nat → Bool
  tAfterCrash : Int
  schedObs : Nat → Nat
  schedClicks : Nat → Bool
  tAfterSched : Int

/-- Lines 432–451 of `WatchdogWorker.run`: the part of a tick after the
crash branch, at clock value `now`.  Computes elapsed time, emits progress,
sends the once-per-cycle warning when the lead-time threshold is reached, and
performs the scheduled restart when the interval has elapsed (resetting the
cycle on success, emitting `Failed` and ending the run on failure).  A `none`
state means the run returned. -/
def tickSchedule (cfg : AppConfig) (s : LoopState) (inp : TickInput)
    (now : Int) : List Ev × Option LoopState :=
  let elapsed := now - s.cycleStart
  let interval_seconds := cfg.interval_min * 60
  let progressEv := Ev.progress (min 100 (elapsed * 100 / interval_seconds))
  let warnNow : Prop :=
    s.warningSent = false ∧ interval_seconds - AppConstants.WARNING_OFFSET ≤ elapsed
  let warnEvs := if warnNow then [Ev.notify (create_warning_message now)] else []
  let warningSent' := if warnNow then true else s.warningSent
  if interval_seconds ≤ elapsed then
    let r := perform_restart cfg inp.stopDuring .scheduled inp.schedObs inp.schedClicks
    if r.1 then
      (progressEv :: warnEvs ++ r.2.2, some ⟨inp.tAfterSched, false, s.lastCount⟩)
    else
      (progressEv :: warnEvs ++ r.2.2 ++ [Ev.statusChanged .failed], none)
  else
    (progressEv :: warnEvs, some ⟨s.cycleStart, warningSent', s.lastCount⟩)

/-- Lines 419–451 of `WatchdogWorker.run`: one full tick body after the stop
checks.  When the count dropped to exactly 1 from above 1, the crash restart
runs first (on failure the run emits `Failed` and returns; on success the
cycle restarts at `tAfterCrash` and the warning flag clears); the last
observed count is then updated and the schedule part runs at the appropriate
clock value. -/
def tick (cfg : AppConfig) (s : LoopState) (inp : TickInput) :
    List Ev × Option LoopState :=
  if inp.count = 1 ∧ 1 < s.lastCount then
    let r := perform_restart cfg inp.stopDuring .crash inp.crashObs inp.crashClicks
    if r.1 then
      let rest := tickSchedule cfg ⟨inp.tAfterCrash, false, inp.count⟩ inp inp.tAfterCrash
      (r.2.2 ++ rest.1, rest.2)
    else
      (r.2.2 ++ [Ev.statusChanged .failed], none)
  else
    tickSchedule cfg ⟨s.cycleStart, s.warningSent, inp.count⟩ inp inp.tNow

/-- How a run of the polling loop ended: stopped cooperatively, halted with
`Failed`, or still in progress with the given state once the supplied tick
inputs ran out. -/
inductive RunEnd where
  | stopped
  | failed
  | pending (s : LoopState)
deriving DecidableEq, Repr

/-- The `while not self._is_stop_requested()` loop of `WatchdogWorker.run`
(lines 413–454) over a list of tick inputs.  A true stop flag at either
boundary check ends the loop and emits `Stopped` (lines 453–454); a tick body
that returned ends the run as `Failed`; otherwise the loop continues with the
updated state. -/
def runLoop (cfg : AppConfig) : LoopState → List TickInput → List Ev × RunEnd
  | s, [] => ([], .pending s)
  | s, inp :: rest =>
    if inp.stopA then ([Ev.statusChanged .stopped], .stopped)
    else if inp.stopB then ([Ev.statusChanged .stopped], .stopped)
    else
      match tick cfg s inp with
      | (evs, none) => (evs, .failed)
      | (evs, some s') =>
        let r := runLoop cfg s' rest
        (evs ++ r.1, r.2)

/-- `WatchdogWorker.run` (lines 404–454): emit `Running`, initialise the
cycle state from the start clock `t0` and an initial process count, then run
the polling loop. -/
def watchdogRun (cfg : AppConfig) (t0 : Int) (initialCount : Nat)
    (inps : List TickInput) : List Ev × RunEnd :=
  let r := runLoop cfg ⟨t0, false, initialCount⟩ inps
  (Ev.statusChanged .running :: r.1, r.2)

/-- `KramoMainWindow._collect_config` (lines 634–669): read the form fields,
fail when manual coordinates are enabled but not captured, construct the
validated `AppConfig` (a `ValueError` is caught and yields `none`), and
reject a configuration without at least one non-empty webhook. -/
def collect_config (interval : Int) (w1 w2 ping : String) (limit : Bool)
    (manualChecked : Bool) (coordText : String)
    (storedCoord : Option (Int × Int)) : Option AppConfig :=
  if manualChecked ∧ coordText = "Not set" then none
  else
    let button_coord := if manualChecked then storedCoord else none
    match mkAppConfig interval (pyStrip w1) (pyStrip w2) (pyStrip ping) limit button_coord with
    | .error _ => none
    | .ok c => if c.has_valid_webhooks then some c else none

/-- `KramoMainWindow._start_monitoring` (lines 671–697): the watchdog thread
is started only when `_collect_config` produced a configuration and saving it
succeeded. -/
def start_monitoring_starts (collected : Option AppConfig) (saveOk : Bool) :
    Bool :=
  match collected with
  | none => false
  | some _ => saveOk

/-- Recogniser for join-invocation events. -/
def isClickEv : Ev → Bool
  | .clickJoin _ => true
  | _ => false

/-- The number of join-invocation attempts recorded in an event list. -/
def clickCount (evs : List Ev) : Nat := evs.countP isClickEv

/-- Recogniser for warning-notification events. -/
def isWarningEv : Ev → Bool
  | .notify (.warningAt _) => true
  | _ => false

/-- The warning notifications recorded in an event list, in order. -/
def warningsOf (evs : List Ev) : List Ev := evs.filter isWarningEv

/-- The retry loop only ever sends retry-warning notifications. -/
lemma mem_notify_restartAttempts {m : Msg} {ls : Bool} {obs : Nat → Nat}
    {clicks : Nat → Bool} {attempt fuel : Nat}
    (h : Ev.notify m ∈ (restartAttempts ls obs clicks attempt fuel).2.2) :
    ∃ a, m = .retry a := by
  induction fuel generalizing attempt with
  | zero => simp [restartAttempts] at h
  | succ fuel ih =>
    simp only [restartAttempts] at h
    split at h
    · split at h <;> simp at h
    · split at h
      · simp at h
        rcases h with h | h
        · exact ⟨_, h⟩
        · exact ih h
      · simp at h

/-- The restart sequence only ever notifies its reason, retry warnings, and
the final failure message. -/
lemma mem_notify_perform_restart {m : Msg} {cfg : AppConfig} {stop : Bool}
    {reason : Msg} {obs : Nat → Nat} {clicks : Nat → Bool}
    (h : Ev.notify m ∈ (perform_restart cfg stop reason obs clicks).2.2) :
    m = reason ∨ (∃ a, m = .retry a) ∨ m = .failure cfg.ping_id := by
  simp only [perform_restart] at h
  split at h
  · simp at h
    rcases h with h | h
    · exact .inl h
    · exact .inr (.inl (mem_notify_restartAttempts h))
  · simp at h
    rcases h with h | h | h
    · exact .inl h
    · exact .inr (.inl (mem_notify_restartAttempts h))
    · exact .inr (.inr h)

/-- The restart sequence always begins by notifying its reason and killing
the target processes. -/
lemma perform_restart_events_head (cfg : AppConfig) (stop : Bool) (reason : Msg)
    (obs : Nat → Nat) (clicks : Nat → Bool) :
    ∃ tl, (perform_restart cfg stop reason obs clicks).2.2 =
      Ev.notify reason :: Ev.killTargets :: tl := by
  simp only [perform_restart]
  cases hr : (restartAttempts cfg.limit_strap obs clicks 1 AppConstants.MAX_RETRIES).1
  · exact ⟨_, rfl⟩
  · exact ⟨_, rfl⟩

/-- In a tick whose count dropped to 1 from above 1, the events start with
the crash restart's events. -/
lemma tick_crash_events (cfg : AppConfig) (s : LoopState) (inp : TickInput)
    (hcond : inp.count = 1 ∧ 1 < s.lastCount) :
    ∃ rest, (tick cfg s inp).1 =
      (perform_restart cfg inp.stopDuring .crash inp.crashObs inp.crashClicks).2.2
        ++ rest := by
  simp only [tick, if_pos hcond]
  cases hr : (perform_restart cfg inp.stopDuring .crash inp.crashObs inp.crashClicks).1
  · exact ⟨_, rfl⟩
  · exact ⟨_, rfl⟩

/-- C1: every call of the restart sequence performs at most 3 join-invocation
attempts; it succeeds exactly when one of the three per-attempt verification
counts is positive, returning on the first such attempt (capping helper
processes first exactly when the limit flag is set), and it returns failure
only when all three verifications showed 0. -/
theorem C1_restart_retry_bound (cfg : AppConfig) (stop : Bool) (reason : Msg)
    (obs : Nat → Nat) (clicks : Nat → Bool) :
    clickCount (perform_restart cfg stop reason obs clicks).2.2 ≤ 3
    ∧ ((perform_restart cfg stop reason obs clicks).1 = true ↔
        0 < obs 1 ∨ 0 < obs 2 ∨ 0 < obs 3)
    ∧ (0 < obs 1 →
        perform_restart cfg stop reason obs clicks =
          (true, 1, [Ev.notify reason, Ev.killTargets, Ev.clickJoin (clicks 1),
            Ev.verify (obs 1)] ++ if cfg.limit_strap then [Ev.capHelpers] else []))
    ∧ (obs 1 = 0 → 0 < obs 2 →
        (perform_restart cfg stop reason obs clicks).1 = true
        ∧ (perform_restart cfg stop reason obs clicks).2.1 = 2
        ∧ clickCount (perform_restart cfg stop reason obs clicks).2.2 = 2)
    ∧ (obs 1 = 0 → obs 2 = 0 → 0 < obs 3 →
        (perform_restart cfg stop reason obs clicks).1 = true
        ∧ (perform_restart cfg stop reason obs clicks).2.1 = 3
        ∧ clickCount (perform_restart cfg stop reason obs clicks).2.2 = 3)
    ∧ (obs 1 = 0 → obs 2 = 0 → obs 3 = 0 →
        (perform_restart cfg stop reason obs clicks).1 = false
        ∧ (perform_restart cfg stop reason obs clicks).2.1 = 3
        ∧ clickCount (perform_restart cfg stop reason obs clicks).2.2 = 3)
    ∧ ((perform_restart cfg stop reason obs clicks).1 = true →
        (Ev.capHelpers ∈ (perform_restart cfg stop reason obs clicks).2.2 ↔
          cfg.limit_strap = true))
    ∧ ((perform_restart cfg stop reason obs clicks).1 = false →
        Ev.capHelpers ∉ (perform_restart cfg stop reason obs clicks).2.2) := by
  rcases Nat.eq_zero_or_pos (obs 1) with h1 | h1 <;>
    rcases Nat.eq_zero_or_pos (obs 2) with h2 | h2 <;>
      rcases Nat.eq_zero_or_pos (obs 3) with h3 | h3 <;>
        cases hls : cfg.limit_strap <;>
          simp [perform_restart, restartAttempts, clickCount, isClickEv, h1, h2, h3, hls,
            Nat.lt_irrefl, Nat.pos_iff_ne_zero, List.countP_cons, List.countP_append] <;>
          omega

/-- Witness for C1: with counts 0 then 4, the sequence succeeds on attempt 2
with exactly 2 join-invocation attempts. -/
theorem C1_restart_retry_bound_witness :
    (perform_restart ⟨28, "", "", "u", true, none⟩ false .scheduled
        (fun i => if i = 2 then 4 else 0) (fun _ => true)).1 = true
    ∧ (perform_restart ⟨28, "", "", "u", true, none⟩ false .scheduled
        (fun i => if i = 2 then 4 else 0) (fun _ => true)).2.1 = 2
    ∧ clickCount (perform_restart ⟨28, "", "", "u", true, none⟩ false .scheduled
        (fun i => if i = 2 then 4 else 0) (fun _ => true)).2.2 = 2 :=
  (C1_restart_retry_bound ⟨28, "", "", "u", true, none⟩ false .scheduled
    (fun i => if i = 2 then 4 else 0) (fun _ => true)).2.2.2.1 (by decide) (by decide)

/-- Stepping the loop over one tick that continues with a new state. -/
lemma runLoop_cons_step (cfg : AppConfig) (s : LoopState) (inp : TickInput)
    (rest : List TickInput) (evs : List Ev) (s' : LoopState)
    (hsa : inp.stopA = false) (hsb : inp.stopB = false)
    (ht : tick cfg s inp = (evs, some s')) :
    runLoop cfg s (inp :: rest) =
      (evs ++ (runLoop cfg s' rest).1, (runLoop cfg s' rest).2) := by
  rw [runLoop, if_neg (by simp [hsa]), if_neg (by simp [hsb]), ht]

/-- A tick without a crash drop and with the interval not yet elapsed emits
one progress event, plus the warning exactly when it was not yet sent and the
lead-time threshold is reached; the cycle start is unchanged. -/
lemma tick_quiet (cfg : AppConfig) (c0 : Int) (b : Bool) (n : Nat) (inp : TickInput)
    (hnc : inp.count ≠ 1)
    (hns : inp.tNow - c0 < cfg.interval_min * 60) :
    tick cfg ⟨c0, b, n⟩ inp =
      (Ev.progress (min 100 ((inp.tNow - c0) * 100 / (cfg.interval_min * 60))) ::
          (if b = false ∧ cfg.interval_min * 60 - AppConstants.WARNING_OFFSET ≤ inp.tNow - c0
           then [Ev.notify (Msg.warningAt (inp.tNow + AppConstants.WARNING_OFFSET))] else []),
        some ⟨c0,
          if b = false ∧ cfg.interval_min * 60 - AppConstants.WARNING_OFFSET ≤ inp.tNow - c0
          then true else b,
          inp.count⟩) := by
  have hcond : ¬(inp.count = 1 ∧ 1 < n) := fun h => hnc h.1
  simp only [tick, if_neg hcond, tickSchedule, create_warning_message,
    if_neg (not_le.mpr hns)]

/-- Within one cycle (no crash drop, interval never elapsed, no stop), the
warnings a run emits are exactly one warning at the first tick reaching the
lead-time threshold — none when the flag was already set. -/
lemma runLoop_warnings (cfg : AppConfig) (c0 : Int) (b : Bool) (n : Nat)
    (inps : List TickInput)
    (hstop : ∀ inp ∈ inps, inp.stopA = false ∧ inp.stopB = false)
    (hnc : ∀ inp ∈ inps, inp.count ≠ 1)
    (hns : ∀ inp ∈ inps, inp.tNow - c0 < cfg.interval_min * 60) :
    warningsOf (runLoop cfg ⟨c0, b, n⟩ inps).1 =
      if b = false then
        ((inps.find? fun inp =>
            decide (cfg.interval_min * 60 - AppConstants.WARNING_OFFSET ≤ inp.tNow - c0)).map
          fun inp => Ev.notify (.warningAt (inp.tNow + AppConstants.WARNING_OFFSET))).toList
      else [] := by
  induction inps generalizing b n with
  | nil => cases b <;> simp [runLoop, warningsOf]
  | cons inp rest ih =>
    obtain ⟨hsa, hsb⟩ := hstop inp (List.mem_cons_self _ _)
    have hnc1 := hnc inp (List.mem_cons_self _ _)
    have hns1 := hns inp (List.mem_cons_self _ _)
    have hstop' : ∀ i ∈ rest, i.stopA = false ∧ i.stopB = false :=
      fun i hi => hstop i (List.mem_cons_of_mem _ hi)
    have hnc' : ∀ i ∈ rest, i.count ≠ 1 := fun i hi => hnc i (List.mem_cons_of_mem _ hi)
    have hns' : ∀ i ∈ rest, i.tNow - c0 < cfg.interval_min * 60 :=
      fun i hi => hns i (List.mem_cons_of_mem _ hi)
    rw [runLoop_cons_step cfg ⟨c0, b, n⟩ inp rest _ _ hsa hsb
      (tick_quiet cfg c0 b n inp hnc1 hns1)]
    by_cases hw : cfg.interval_min * 60 - AppConstants.WARNING_OFFSET ≤ inp.tNow - c0
    · cases b with
      | false =>
        rw [if_pos ⟨rfl, hw⟩, if_pos ⟨rfl, hw⟩]
        simp only [warningsOf, List.filter_append, List.filter_cons, isWarningEv]
        rw [List.find?_cons_of_pos _ (by simpa using hw)]
        have hrec := ih true inp.count hstop' hnc' hns'
        simp only [warningsOf] at hrec
        simp [hrec]
      | true =>
        rw [if_neg (by simp), if_neg (by simp)]
        simp only [warningsOf, List.filter_append, List.filter_cons, isWarningEv]
        have hrec := ih true inp.count hstop' hnc' hns'
        simp only [warningsOf] at hrec
        simp [hrec]
    · rw [if_neg (fun h => hw h.2), if_neg (fun h => hw h.2)]
      simp only [warningsOf, List.filter_append, List.filter_cons, isWarningEv]
      have hrec := ih b inp.count hstop' hnc' hns'
      simp only [warningsOf] at hrec
      rw [List.find?_cons_of_neg _ (by simpa using hw)]
      simp [hrec]

/-- C3: within one cycle (fresh warning flag; count never hits the crash
pattern; the interval never elapses; no stop), with warning lead
`WARNING_OFFSET` strictly below the interval, the run sends exactly one
warning — at the first tick whose elapsed time reaches interval minus lead,
never before and never twice — and that warning names the predicted restart
time, the tick's current time plus the warning lead. -/
theorem C3_warning_once_per_cycle (cfg : AppConfig) (s : LoopState)
    (inps : List TickInput)
    (hlead : AppConstants.WARNING_OFFSET < cfg.interval_min * 60)
    (hws : s.warningSent = false)
    (hstop : ∀ inp ∈ inps, inp.stopA = false ∧ inp.stopB = false)
    (hnc : ∀ inp ∈ inps, inp.count ≠ 1)
    (hns : ∀ inp ∈ inps, inp.tNow - s.cycleStart < cfg.interval_min * 60) :
    warningsOf (runLoop cfg s inps).1 =
      ((inps.find? fun inp =>
          decide (cfg.interval_min * 60 - AppConstants.WARNING_OFFSET ≤
            inp.tNow - s.cycleStart)).map
        fun inp => Ev.notify (.warningAt (inp.tNow + AppConstants.WARNING_OFFSET))).toList := by
  obtain ⟨c0, b, n⟩ := s
  cases b with
  | true => exact absurd hws (by simp)
  | false => simpa using runLoop_warnings cfg c0 false n inps hstop hnc hns

/-- Witness for C3: interval 2 minutes, lead 60 s, ticks at 30 s, 70 s and
110 s with counts 2 — one warning fires, at the 70 s tick, predicting a
restart at 130 s. -/
theorem C3_warning_once_per_cycle_witness :
    warningsOf (runLoop ⟨2, "", "", "", false, none⟩ ⟨0, false, 2⟩
      [⟨false, false, 2, 30, false, fun _ => 2, fun _ => true, 30,
          fun _ => 2, fun _ => true, 30⟩,
       ⟨false, false, 2, 70, false, fun _ => 2, fun _ => true, 70,
          fun _ => 2, fun _ => true, 70⟩,
       ⟨false, false, 2, 110, false, fun _ => 2, fun _ => true, 110,
          fun _ => 2, fun _ => true, 110⟩]).1 =
      [Ev.notify (.warningAt 130)] :=
  (C3_warning_once_per_cycle ⟨2, "", "", "", false, none⟩ ⟨0, false, 2⟩
    [⟨false, false, 2, 30, false, fun _ => 2, fun _ => true, 30,
        fun _ => 2, fun _ => true, 30⟩,
     ⟨false, false, 2, 70, false, fun _ => 2, fun _ => true, 70,
        fun _ => 2, fun _ => true, 70⟩,
     ⟨false, false, 2, 110, false, fun _ => 2, fun _ => true, 110,
        fun _ => 2, fun _ => true, 110⟩]
    (by decide) rfl (by decide) (by decide) (by decide)).trans (by decide)

/-- C2: whenever the previous observed count was above 1 and the current
count is exactly 1, the tick initiates a crash-triggered restart with the
crash reason message — with no condition on the elapsed interval time. -/
theorem C2_crash_restart_on_drop (cfg : AppConfig) (s : LoopState)
    (inp : TickInput) (h1 : inp.count = 1) (h2 : 1 < s.lastCount) :
    ∃ tl, (tick cfg s inp).1 =
      Ev.notify .crash :: Ev.killTargets :: tl := by
  obtain ⟨rest, hres⟩ := tick_crash_events cfg s inp ⟨h1, h2⟩
  obtain ⟨tl0, htl⟩ := perform_restart_events_head cfg inp.stopDuring .crash
    inp.crashObs inp.crashClicks
  exact ⟨tl0 ++ rest, by rw [hres, htl]; simp⟩

/-- Witness for C2, realising the spec scenario of counts 2, 2, 1 with the
interval (28 minutes) far from elapsed: the third tick starts with a crash
restart, and the whole run never performs a scheduled restart. -/
theorem C2_crash_restart_on_drop_witness :
    (∃ tl, (tick ⟨28, "", "", "", false, none⟩ ⟨0, false, 2⟩
        ⟨false, false, 1, 15, false, fun _ => 2, fun _ => true, 45,
          fun _ => 2, fun _ => true, 75⟩).1 =
      Ev.notify .crash :: Ev.killTargets :: tl)
    ∧ Ev.notify .scheduled ∉
        (runLoop ⟨28, "", "", "", false, none⟩ ⟨0, false, 2⟩
          [⟨false, false, 2, 5, false, fun _ => 2, fun _ => true, 5,
              fun _ => 2, fun _ => true, 5⟩,
           ⟨false, false, 2, 10, false, fun _ => 2, fun _ => true, 10,
              fun _ => 2, fun _ => true, 10⟩,
           ⟨false, false, 1, 15, false, fun _ => 2, fun _ => true, 45,
              fun _ => 2, fun _ => true, 75⟩]).1 :=
  ⟨C2_crash_restart_on_drop ⟨28, "", "", "", false, none⟩ ⟨0, false, 2⟩
      ⟨false, false, 1, 15, false, fun _ => 2, fun _ => true, 45,
        fun _ => 2, fun _ => true, 75⟩ rfl (by decide),
    by decide⟩

/-- C4 counterexample: the claim's mechanism — "after a crash-triggered
restart completes in a tick, control returns to the top of the loop
immediately" — is false.  With interval 1 minute, a tick at time 100 whose
count dropped 2 → 1 performs the crash restart and then, in the same tick,
still emits a progress event and even a warning notification (events 5 and 6
below; the restart's own events are 1–4): execution falls through to the
elapsed/warning/schedule section instead of returning to the loop head. -/
theorem C4_counterexample_tick_continues_after_crash :
    (tick ⟨1, "", "", "", false, none⟩ ⟨0, false, 2⟩
        ⟨false, false, 1, 100, false, fun _ => 1, fun _ => true, 130,
          fun _ => 1, fun _ => true, 160⟩).1 =
      [Ev.notify .crash, Ev.killTargets, Ev.clickJoin true, Ev.verify 1,
        Ev.progress 0, Ev.notify (.warningAt 190)]
    ∧ (tick ⟨1, "", "", "", false, none⟩ ⟨0, false, 2⟩
        ⟨false, false, 1, 100, false, fun _ => 1, fun _ => true, 130,
          fun _ => 1, fun _ => true, 160⟩).1.getLast? =
      some (Ev.notify (.warningAt 190)) := by
  constructor <;> decide

/-- C4 amended: the crash-triggered and the scheduled restart still cannot
both fire in one tick, but for a different reason than the claim states: a
successful crash restart resets the cycle start to the clock value read right
after it, so the elapsed time recomputed in the same tick is 0, below any
valid interval (≥ 1 minute) — the tick body nevertheless continues past the
crash branch. -/
theorem C4_amended_no_scheduled_restart_in_crash_tick (cfg : AppConfig)
    (s : LoopState) (inp : TickInput) (hI : 1 ≤ cfg.interval_min)
    (h1 : inp.count = 1) (h2 : 1 < s.lastCount)
    (hok : (perform_restart cfg inp.stopDuring .crash inp.crashObs
      inp.crashClicks).1 = true) :
    Ev.notify .scheduled ∉ (tick cfg s inp).1 := by
  have hcond : inp.count = 1 ∧ 1 < s.lastCount := ⟨h1, h2⟩
  simp only [tick, if_pos hcond]
  rw [if_pos hok]
  intro hmem
  rcases List.mem_append.mp hmem with hm | hm
  · rcases mem_notify_perform_restart hm with h | ⟨a, h⟩ | h <;> simp at h
  · revert hm
    simp only [tickSchedule, create_warning_message]
    rw [if_neg (by omega : ¬(cfg.interval_min * 60 ≤ inp.tAfterCrash - inp.tAfterCrash))]
    split <;> simp

/-- Witness for the amended C4 at the counterexample's concrete tick. -/
theorem C4_amended_no_scheduled_restart_witness :
    Ev.notify .scheduled ∉ (tick ⟨1, "", "", "", false, none⟩ ⟨0, false, 2⟩
      ⟨false, false, 1, 100, false, fun _ => 1, fun _ => true, 130,
        fun _ => 1, fun _ => true, 160⟩).1 :=
  C4_amended_no_scheduled_restart_in_crash_tick ⟨1, "", "", "", false, none⟩
    ⟨0, false, 2⟩
    ⟨false, false, 1, 100, false, fun _ => 1, fun _ => true, 130,
      fun _ => 1, fun _ => true, 160⟩
    (by decide) rfl (by decide) (by decide)

/-- C5: with at most one strap helper, `limit_strap_processes` kills
nothing; with two or more, the helpers sorted ascending by creation time
split as one kept process followed by exactly the killed list — the kept
process is an earliest-created helper, the killed processes are all the
others; in particular three helpers with strictly increasing creation times
t0 < t1 < t2 (listed in that order) lose exactly the t1 and t2 ones. -/
theorem C5_strap_capping_keeps_earliest :
    (∀ procs : List ProcInfo, (strapHelpers procs).length ≤ 1 →
        limit_strap_processes procs = [])
    ∧ (∀ procs : List ProcInfo, 2 ≤ (strapHelpers procs).length →
        ∃ keep,
          (strapHelpers procs).mergeSort
              (fun a b => decide (a.create_time ≤ b.create_time)) =
            keep :: limit_strap_processes procs
          ∧ keep ∈ strapHelpers procs
          ∧ (∀ q ∈ strapHelpers procs, keep.create_time ≤ q.create_time)
          ∧ (keep :: limit_strap_processes procs).Perm (strapHelpers procs)
          ∧ (limit_strap_processes procs).length = (strapHelpers procs).length - 1)
    ∧ (∀ x y z : ProcInfo,
        pyEndsWith (pyLower x.name) AppConstants.STRAP_SUFFIX = true →
        pyEndsWith (pyLower y.name) AppConstants.STRAP_SUFFIX = true →
        pyEndsWith (pyLower z.name) AppConstants.STRAP_SUFFIX = true →
        x.create_time < y.create_time → y.create_time < z.create_time →
        limit_strap_processes [x, y, z] = [y, z]) := by
  refine ⟨fun procs hlen => ?_, fun procs hlen => ?_, fun x y z hx hy hz hxy hyz => ?_⟩
  · simp only [limit_strap_processes]
    rw [if_pos hlen]
  · set le : ProcInfo → ProcInfo → Bool :=
      fun a b => decide (a.create_time ≤ b.create_time) with hle
    have hperm : ((strapHelpers procs).mergeSort le).Perm (strapHelpers procs) :=
      List.mergeSort_perm _ _
    have hlen2 : 2 ≤ ((strapHelpers procs).mergeSort le).length := by
      rw [hperm.length_eq]; exact hlen
    have hne : (strapHelpers procs).mergeSort le ≠ [] := by
      intro hnil
      rw [hnil] at hlen2
      simp at hlen2
    obtain ⟨keep, rest, hk⟩ := List.exists_cons_of_ne_nil hne
    have hlimit : limit_strap_processes procs = rest := by
      simp only [limit_strap_processes]
      rw [if_neg (by omega), ← hle, hk]
      rfl
    have hsorted : List.Pairwise (fun a b : ProcInfo => le a b = true)
        ((strapHelpers procs).mergeSort le) :=
      List.sorted_mergeSort
        (fun a b c hab hbc => by
          rw [hle] at *
          simp only [decide_eq_true_eq] at *
          omega)
        (fun a b => by
          rw [hle]
          simp only [Bool.or_eq_true, decide_eq_true_eq]
          omega)
        (strapHelpers procs)
    have hmin : ∀ q ∈ strapHelpers procs, keep.create_time ≤ q.create_time := by
      intro q hq
      have hq2 : q ∈ keep :: rest := by
        rw [← hk]; exact (List.Perm.mem_iff hperm).mpr hq
      rcases List.mem_cons.mp hq2 with h | h
      · rw [h]
      · have hp := (List.pairwise_cons.mp (hk ▸ hsorted)).1 q h
        rw [hle] at hp
        simpa using hp
    refine ⟨keep, ?_, ?_, hmin, ?_, ?_⟩
    · rw [hlimit]; exact hk
    · have hmem : keep ∈ keep :: rest := List.mem_cons_self _ _
      rw [← hk] at hmem
      exact (List.Perm.mem_iff hperm).mp hmem
    · rw [hlimit]
      exact hk ▸ hperm
    · rw [hlimit]
      have hl := hperm.length_eq
      rw [hk] at hl
      simp at hl
      omega
  · have hfilter : strapHelpers [x, y, z] = [x, y, z] := by
      simp [strapHelpers, hx, hy, hz]
    have hpw : List.Pairwise
        (fun a b : ProcInfo => decide (a.create_time ≤ b.create_time) = true)
        [x, y, z] := by
      refine List.Pairwise.cons (fun b hb => ?_)
        (List.Pairwise.cons (fun b hb => ?_) (List.pairwise_singleton _ _))
      · rcases List.mem_cons.mp hb with h | h
        · subst h
          simp only [decide_eq_true_eq]
          omega
        · have h2 := List.mem_singleton.mp h
          subst h2
          simp only [decide_eq_true_eq]
          omega
      · have h2 := List.mem_singleton.mp hb
        subst h2
        simp only [decide_eq_true_eq]
        omega
    have hsort : [x, y, z].mergeSort
        (fun a b => decide (a.create_time ≤ b.create_time)) = [x, y, z] :=
      List.mergeSort_of_sorted hpw
    simp only [limit_strap_processes, hfilter]
    rw [if_neg (by simp), hsort]
    rfl

/-- Witness for C5: three helpers with creation times 10 < 20 < 30 — exactly
the two later-created ones are killed. -/
theorem C5_strap_capping_keeps_earliest_witness :
    limit_strap_processes
      [⟨"astrap.exe", 10, 1⟩, ⟨"bstrap.exe", 20, 2⟩, ⟨"cstrap.exe", 30, 3⟩] =
      [⟨"bstrap.exe", 20, 2⟩, ⟨"cstrap.exe", 30, 3⟩] :=
  C5_strap_capping_keeps_earliest.2.2 ⟨"astrap.exe", 10, 1⟩ ⟨"bstrap.exe", 20, 2⟩
    ⟨"cstrap.exe", 30, 3⟩ (by decide) (by decide) (by decide) (by decide) (by decide)

/-- Stepping the loop over one tick whose body returned: the run ends as
`Failed` and the remaining tick inputs are never consumed. -/
lemma runLoop_cons_failed (cfg : AppConfig) (s : LoopState) (inp : TickInput)
    (rest : List TickInput) (evs : List Ev)
    (hsa : inp.stopA = false) (hsb : inp.stopB = false)
    (ht : tick cfg s inp = (evs, none)) :
    runLoop cfg s (inp :: rest) = (evs, .failed) := by
  rw [runLoop, if_neg (by simp [hsa]), if_neg (by simp [hsb]), ht]

/-- When the schedule part of a tick returns, its last event is the `Failed`
status emission. -/
lemma tickSchedule_failed_last (cfg : AppConfig) (s : LoopState) (inp : TickInput)
    (now : Int) (evs : List Ev)
    (ht : tickSchedule cfg s inp now = (evs, none)) :
    evs.getLast? = some (Ev.statusChanged .failed) := by
  simp only [tickSchedule] at ht
  split at ht
  · split at ht
    · simp at ht
    · rw [Prod.mk.injEq] at ht
      rw [← ht.1]
      exact List.getLast?_concat _
  · simp at ht

/-- When a tick body returns, its last event is the `Failed` status
emission. -/
lemma tick_failed_last (cfg : AppConfig) (s : LoopState) (inp : TickInput)
    (evs : List Ev) (ht : tick cfg s inp = (evs, none)) :
    evs.getLast? = some (Ev.statusChanged .failed) := by
  simp only [tick] at ht
  split at ht
  · split at ht
    · rw [Prod.mk.injEq] at ht
      obtain ⟨hevs, hnone⟩ := ht
      have hts : tickSchedule cfg ⟨inp.tAfterCrash, false, inp.count⟩ inp
          inp.tAfterCrash =
          ((tickSchedule cfg ⟨inp.tAfterCrash, false, inp.count⟩ inp
            inp.tAfterCrash).1, none) := by
        rw [← hnone]
      have hlast := tickSchedule_failed_last cfg
        ⟨inp.tAfterCrash, false, inp.count⟩ inp inp.tAfterCrash _ hts
      rw [← hevs]
      simp [List.getLast?_append, hlast]
    · rw [Prod.mk.injEq] at ht
      rw [← ht.1]
      exact List.getLast?_concat _
  · exact tickSchedule_failed_last _ _ _ _ _ ht

/-- C6 counterexample: a stop requested during a multi-attempt restart is
NOT honored between restart attempts.  `_perform_restart` contains no stop
check at all: with the stop flag raised for its whole duration, the sequence
still performs all 3 join-invocation attempts, and its result is identical to
the run with the flag clear. -/
theorem C6_counterexample_stop_ignored_between_attempts :
    clickCount (perform_restart ⟨1, "", "", "", false, none⟩ true .scheduled
      (fun _ => 0) (fun _ => false)).2.2 = 3
    ∧ perform_restart ⟨1, "", "", "", false, none⟩ true .scheduled
        (fun _ => 0) (fun _ => false) =
      perform_restart ⟨1, "", "", "", false, none⟩ false .scheduled
        (fun _ => 0) (fun _ => false) :=
  ⟨by decide, rfl⟩

/-- C6 amended: a stop request takes effect only at the polling loop's two
boundary checks (the loop condition and the post-sleep check), where the loop
ends with `Stopped` before running any tick body; the restart sequence never
consults the stop flag, so a stop requested during a restart is honored only
at the next tick boundary after the whole sequence completes — not between
restart attempts. -/
theorem C6_amended_stop_only_at_tick_boundaries :
    (∀ (cfg : AppConfig) (s1 s2 : Bool) (reason : Msg) (obs : Nat → Nat)
        (clicks : Nat → Bool),
        perform_restart cfg s1 reason obs clicks =
          perform_restart cfg s2 reason obs clicks)
    ∧ (∀ (cfg : AppConfig) (s : LoopState) (inp : TickInput)
        (rest : List TickInput), inp.stopA = true →
        runLoop cfg s (inp :: rest) = ([Ev.statusChanged .stopped], .stopped))
    ∧ (∀ (cfg : AppConfig) (s : LoopState) (inp : TickInput)
        (rest : List TickInput), inp.stopA = false → inp.stopB = true →
        runLoop cfg s (inp :: rest) = ([Ev.statusChanged .stopped], .stopped)) := by
  refine ⟨fun _ _ _ _ _ _ => rfl, fun cfg s inp rest ha => ?_,
    fun cfg s inp rest ha hb => ?_⟩
  · rw [runLoop, if_pos ha]
  · rw [runLoop, if_neg (by simp [ha]), if_pos hb]

/-- Witness for the amended C6: a tick with the stop flag set at the loop
condition ends the run immediately with `Stopped`. -/
theorem C6_amended_stop_only_at_tick_boundaries_witness :
    runLoop ⟨1, "", "", "", false, none⟩ ⟨0, false, 0⟩
      [⟨true, false, 0, 0, false, fun _ => 0, fun _ => false, 0,
          fun _ => 0, fun _ => false, 0⟩] =
      ([Ev.statusChanged .stopped], .stopped) :=
  C6_amended_stop_only_at_tick_boundaries.2.1 ⟨1, "", "", "", false, none⟩
    ⟨0, false, 0⟩
    ⟨true, false, 0, 0, false, fun _ => 0, fun _ => false, 0,
      fun _ => 0, fun _ => false, 0⟩ [] rfl

/-- C7: when all three verification counts are 0, the restart sequence fails
and its very last action is the failure notification carrying the configured
escalation identifier; the failure text has the `<@id>` mention appended
exactly when an identifier is configured; notifications attempt delivery to
every configured endpoint; and a tick whose restart chain fails ends the run
as `Failed` — its last event the `Failed` status — with the remaining tick
inputs never polled. -/
theorem C7_failure_notification_then_halt :
    (∀ (cfg : AppConfig) (stop : Bool) (reason : Msg) (obs : Nat → Nat)
        (clicks : Nat → Bool), obs 1 = 0 → obs 2 = 0 → obs 3 = 0 →
        (perform_restart cfg stop reason obs clicks).1 = false
        ∧ (perform_restart cfg stop reason obs clicks).2.2.getLast? =
            some (Ev.notify (.failure cfg.ping_id)))
    ∧ (∀ (fmtTime : Int → String) (p : String), p ≠ "" →
        renderMsg fmtTime (.failure p) =
          "❌ Restart failed after 3 attempts" ++ (" <@" ++ p ++ ">"))
    ∧ (∀ (urls : List String) (content : Msg) (httpOk : String → Bool),
        ((send_notification urls content httpOk).2.map Prod.fst) = urls)
    ∧ (∀ (cfg : AppConfig) (s : LoopState) (inp : TickInput)
        (rest : List TickInput) (evs : List Ev),
        inp.stopA = false → inp.stopB = false → tick cfg s inp = (evs, none) →
        runLoop cfg s (inp :: rest) = (evs, .failed)
        ∧ evs.getLast? = some (Ev.statusChanged .failed)) := by
  refine ⟨fun cfg stop reason obs clicks h1 h2 h3 => ?_,
    fun fmtTime p hp => ?_, fun urls content httpOk => ?_,
    fun cfg s inp rest evs hsa hsb ht => ?_⟩
  · constructor
    · simp [perform_restart, restartAttempts, h1, h2, h3]
    · simp [perform_restart, restartAttempts, h1, h2, h3]
  · simp only [renderMsg, if_pos hp]
    rfl
  · simp only [send_notification]
    split
    · next h => simp [h]
    · next h => simp [List.map_map, Function.comp_def]
  · exact ⟨runLoop_cons_failed cfg s inp rest evs hsa hsb ht,
      tick_failed_last cfg s inp evs ht⟩

/-- Witness for C7: a concrete exhausted restart ends in the failure
notification mentioning user `u7`; a concrete failing crash tick ends the run
as `Failed` ignoring a pending second tick. -/
theorem C7_failure_notification_then_halt_witness :
    ((perform_restart ⟨1, "", "", "u7", false, none⟩ false .scheduled
        (fun _ => 0) (fun _ => false)).1 = false
      ∧ (perform_restart ⟨1, "", "", "u7", false, none⟩ false .scheduled
          (fun _ => 0) (fun _ => false)).2.2.getLast? =
        some (Ev.notify (.failure "u7")))
    ∧ renderMsg (fun _ => "") (.failure "u7") =
        "❌ Restart failed after 3 attempts" ++ (" <@" ++ "u7" ++ ">")
    ∧ ((send_notification ["a", "b"] .crash (fun _ => true)).2.map Prod.fst) =
        ["a", "b"]
    ∧ (runLoop ⟨1, "", "", "", false, none⟩ ⟨0, false, 2⟩
          [⟨false, false, 1, 5, false, fun _ => 0, fun _ => false, 5,
              fun _ => 0, fun _ => false, 5⟩,
           ⟨false, false, 2, 10, false, fun _ => 0, fun _ => false, 10,
              fun _ => 0, fun _ => false, 10⟩] =
        ((tick ⟨1, "", "", "", false, none⟩ ⟨0, false, 2⟩
          ⟨false, false, 1, 5, false, fun _ => 0, fun _ => false, 5,
            fun _ => 0, fun _ => false, 5⟩).1, .failed)
      ∧ (tick ⟨1, "", "", "", false, none⟩ ⟨0, false, 2⟩
          ⟨false, false, 1, 5, false, fun _ => 0, fun _ => false, 5,
            fun _ => 0, fun _ => false, 5⟩).1.getLast? =
        some (Ev.statusChanged .failed)) :=
  ⟨C7_failure_notification_then_halt.1 ⟨1, "", "", "u7", false, none⟩ false
      .scheduled (fun _ => 0) (fun _ => false) rfl rfl rfl,
    C7_failure_notification_then_halt.2.1 (fun _ => "") "u7" (by decide),
    C7_failure_notification_then_halt.2.2.1 ["a", "b"] .crash (fun _ => true),
    C7_failure_notification_then_halt.2.2.2 ⟨1, "", "", "", false, none⟩
      ⟨0, false, 2⟩
      ⟨false, false, 1, 5, false, fun _ => 0, fun _ => false, 5,
        fun _ => 0, fun _ => false, 5⟩
      [⟨false, false, 2, 10, false, fun _ => 0, fun _ => false, 10,
          fun _ => 0, fun _ => false, 10⟩]
      ((tick ⟨1, "", "", "", false, none⟩ ⟨0, false, 2⟩
        ⟨false, false, 1, 5, false, fun _ => 0, fun _ => false, 5,
          fun _ => 0, fun _ => false, 5⟩).1) rfl rfl (by decide)⟩

lemma has_valid_webhooks_empty (i : Int) (p : String) (ls : Bool)
    (bc : Option (Int × Int)) :
    AppConfig.has_valid_webhooks ⟨i, "", "", p, ls, bc⟩ = false := rfl

lemma mem_notify_warnEvs {m : Msg} {c : Prop} [Decidable c] {ts : Int}
    (h : Ev.notify m ∈ if c then [Ev.notify (.warningAt ts)] else []) :
    m = .warningAt ts := by
  split at h
  · simpa using h
  · simp at h

lemma mem_notify_tickSchedule {m : Msg} {cfg : AppConfig} {s : LoopState}
    {inp : TickInput} {now : Int}
    (h : Ev.notify m ∈ (tickSchedule cfg s inp now).1) :
    (∃ ts, m = .warningAt ts) ∨ m = .scheduled ∨ (∃ a, m = .retry a)
      ∨ m = .failure cfg.ping_id := by
  revert h
  simp only [tickSchedule, create_warning_message]
  split
  · split
    · intro h
      simp at h
      rcases h with h | h
      · exact .inl ⟨_, mem_notify_warnEvs (by simpa using h)⟩
      · rcases mem_notify_perform_restart h with h | ⟨a, h⟩ | h
        · exact .inr (.inl h)
        · exact .inr (.inr (.inl ⟨a, h⟩))
        · exact .inr (.inr (.inr h))
    · intro h
      simp at h
      rcases h with h | h
      · exact .inl ⟨_, mem_notify_warnEvs (by simpa using h)⟩
      · rcases mem_notify_perform_restart h with h | ⟨a, h⟩ | h
        · exact .inr (.inl h)
        · exact .inr (.inr (.inl ⟨a, h⟩))
        · exact .inr (.inr (.inr h))
  · intro h
    simp at h
    exact .inl ⟨_, mem_notify_warnEvs (by simpa using h)⟩

/-- C8: when both webhook fields strip to empty, `_collect_config` rejects
the configuration (whatever the other inputs), so `_start_monitoring` never
starts the watchdog loop. -/
theorem C8_zero_endpoints_rejected (interval : Int) (w1 w2 ping : String)
    (limit manualChecked : Bool) (coordText : String)
    (storedCoord : Option (Int × Int)) (saveOk : Bool)
    (h1 : pyStrip w1 = "") (h2 : pyStrip w2 = "") :
    collect_config interval w1 w2 ping limit manualChecked coordText storedCoord = none
    ∧ start_monitoring_starts
        (collect_config interval w1 w2 ping limit manualChecked coordText storedCoord)
        saveOk = false := by
  have hnone : collect_config interval w1 w2 ping limit manualChecked coordText
      storedCoord = none := by
    simp only [collect_config]
    split
    · rfl
    · rw [h1, h2]
      split
      · rfl
      · rename_i c heq
        simp only [mkAppConfig] at heq
        split at heq
        · exact absurd heq (by simp)
        · rw [if_neg (by simp), if_neg (by simp)] at heq
          injection heq with h
          subst h
          rw [has_valid_webhooks_empty]
          simp
  exact ⟨hnone, by rw [hnone]; rfl⟩

/-- C9: a valid configuration (interval in range, webhooks empty or
well-formed) saved to the configuration document and reloaded produces
field-for-field identical values — including the optional coordinate, present
or absent. -/
theorem C9_config_round_trip (c : AppConfig)
    (hi1 : 1 ≤ c.interval_min) (hi2 : c.interval_min ≤ 999)
    (hw1 : c.webhook1 = "" ∨ is_valid_webhook_url c.webhook1 = true)
    (hw2 : c.webhook2 = "" ∨ is_valid_webhook_url c.webhook2 = true) :
    load_config (some (save_config c)) = c := by
  obtain ⟨i, w1, w2, p, ls, bc⟩ := c
  simp only at hi1 hi2 hw1 hw2
  have hmk : mkAppConfig i w1 w2 p ls bc = .ok ⟨i, w1, w2, p, ls, bc⟩ := by
    simp only [mkAppConfig]
    rw [if_neg (by omega)]
    rw [if_neg (by rcases hw1 with h | h <;> simp [h])]
    rw [if_neg (by rcases hw2 with h | h <;> simp [h])]
  cases bc with
  | none => simp [load_config, save_config, to_dict, from_dict, hmk]
  | some xy =>
    obtain ⟨x, y⟩ := xy
    simp [load_config, save_config, to_dict, from_dict, hmk]

/-- C10: `count_roblox_processes` is total (never raises) and non-negative;
an enumeration failure yields 0, indistinguishable from an empty process
list; a tick observing count 0 never initiates a crash restart; and a restart
attempt verifying 0 sends the retry warning and drives at least a second
attempt. -/
theorem C10_count_never_raises_errors_read_as_zero :
    (∀ e : String, count_roblox_processes (.error e) = 0)
    ∧ (∀ e : String, count_roblox_processes (.error e) =
        count_roblox_processes (.ok []))
    ∧ (∀ res : Except String (List ProcInfo),
        (0 : Int) ≤ (count_roblox_processes res : Int))
    ∧ (∀ (cfg : AppConfig) (s : LoopState) (inp : TickInput), inp.count = 0 →
        Ev.notify .crash ∉ (tick cfg s inp).1)
    ∧ (∀ (cfg : AppConfig) (stop : Bool) (reason : Msg) (obs : Nat → Nat)
        (clicks : Nat → Bool), obs 1 = 0 →
        Ev.notify (.retry 1) ∈ (perform_restart cfg stop reason obs clicks).2.2
        ∧ 2 ≤ (perform_restart cfg stop reason obs clicks).2.1) := by
  refine ⟨fun e => rfl, fun e => rfl, fun res => Int.ofNat_nonneg _,
    fun cfg s inp h0 => ?_, fun cfg stop reason obs clicks h1 => ?_⟩
  · have hcond : ¬(inp.count = 1 ∧ 1 < s.lastCount) := by simp [h0]
    simp only [tick, if_neg hcond]
    intro hmem
    rcases mem_notify_tickSchedule hmem with ⟨ts, h⟩ | h | ⟨a, h⟩ | h <;> simp at h
  · rcases Nat.eq_zero_or_pos (obs 2) with h2 | h2 <;>
      rcases Nat.eq_zero_or_pos (obs 3) with h3 | h3 <;>
        simp [perform_restart, restartAttempts, h1, h2, h3,
          Nat.pos_iff_ne_zero]

/-- Witness for C8: a whitespace-only first webhook and empty second webhook
are rejected and monitoring does not start. -/
theorem C8_zero_endpoints_rejected_witness :
    collect_config 28 "  " "" "x" false false "Not set" none = none
    ∧ start_monitoring_starts
        (collect_config 28 "  " "" "x" false false "Not set" none) true = false :=
  C8_zero_endpoints_rejected 28 "  " "" "x" false false "Not set" none true
    (by decide) (by decide)

/-- Witness for C9: round trips of a configuration with a coordinate and of
one without. -/
theorem C9_config_round_trip_witness :
    load_config (some (save_config
        ⟨5, "https://discord.com/api/webhooks/a", "", "id", true, some (3, 4)⟩)) =
      ⟨5, "https://discord.com/api/webhooks/a", "", "id", true, some (3, 4)⟩
    ∧ load_config (some (save_config ⟨28, "", "", "", false, none⟩)) =
      ⟨28, "", "", "", false, none⟩ :=
  ⟨C9_config_round_trip ⟨5, "https://discord.com/api/webhooks/a", "", "id",
      true, some (3, 4)⟩ (by decide) (by decide) (.inr (by decide)) (.inl rfl),
    C9_config_round_trip ⟨28, "", "", "", false, none⟩ (by decide) (by decide)
      (.inl rfl) (.inl rfl)⟩

/-- Witness for C10: a tick observing 0 after a previous count of 5 triggers
no crash restart, and a first verification of 0 drives a retry. -/
theorem C10_count_never_raises_witness :
    (Ev.notify .crash ∉ (tick ⟨28, "", "", "", false, none⟩ ⟨0, false, 5⟩
        ⟨false, false, 0, 5, false, fun _ => 0, fun _ => false, 5,
          fun _ => 0, fun _ => false, 5⟩).1)
    ∧ (Ev.notify (.retry 1) ∈ (perform_restart ⟨28, "", "", "", false, none⟩
          false .scheduled (fun _ => 0) (fun _ => false)).2.2
      ∧ 2 ≤ (perform_restart ⟨28, "", "", "", false, none⟩ false .scheduled
          (fun _ => 0) (fun _ => false)).2.1) :=
  ⟨C10_count_never_raises_errors_read_as_zero.2.2.2.1
      ⟨28, "", "", "", false, none⟩ ⟨0, false, 5⟩
      ⟨false, false, 0, 5, false, fun _ => 0, fun _ => false, 5,
        fun _ => 0, fun _ => false, 5⟩ rfl,
    C10_count_never_raises_errors_read_as_zero.2.2.2.2
      ⟨28, "", "", "", false, none⟩ false .scheduled (fun _ => 0)
      (fun _ => false) rfl⟩

end KRAMO
